import Mathlib

/-!
# Verification of `run_container.py` (library_to_samplesheet repository)

A shallow embedding of the container entry script `src/run_container.py`:
it reads two locations from the environment, optionally invokes the
`library_to_samplesheet` translator and the `bcl2fastq` converter for NextSeq
runs, then globs read files under the run directory, groups them by sample
identifier parsed from the filename, copies them into a per-sample tree and
reports collisions.

Environment reading, subprocess execution and filesystem probing are modelled
by a `Config` record supplying those external observations (the file tree
under the run directory, pre-existing directories under the sample root, and
the return codes / standard-error text of the two subprocesses).  The script
itself is embedded operation by operation; source line numbers are cited in
the doc comments.
-/

namespace RunContainer

/-- Python `str.__contains__` (`needle in hay`), used at line 36
(`'nextseq' in run_path`): does `hay` contain `needle` as a contiguous
substring? -/
def hasSub (needle : List Char) : List Char → Bool
  | [] => needle.isEmpty
  | c :: t => needle.isPrefixOf (c :: t) || hasSub needle t

/-- `os.path.basename` (POSIX): the part of the path after the last slash
(lines 35 and 83). -/
def basename (p : String) : String :=
  ⟨(p.data.reverse.takeWhile (fun c => c ≠ '/')).reverse⟩

/-- `os.path.join` for two components (POSIX semantics, lines 99 and 105):
an absolute second component replaces the first; otherwise a single slash
separates them unless the first already ends in one. -/
def pathJoin (a b : String) : String :=
  if b.data.head? = some '/' then b
  else if a = "" then b
  else if a.data.getLast? = some '/' then a ++ b
  else a ++ "/" ++ b

/-- Strip `pre` from the front of `l`, or `none` when it is not a prefix. -/
def stripPre : List Char → List Char → Option (List Char)
  | [], l => some l
  | _ :: _, [] => none
  | a :: as, b :: bs => if a = b then stripPre as bs else none

/-- Split a character list on `/` separators. -/
def splitSlash (acc : List Char) : List Char → List (List Char)
  | [] => [acc.reverse]
  | c :: t => if c = '/' then acc.reverse :: splitSlash [] t else splitSlash (c :: acc) t

/-- Does `glob(f'{run_path}/**/*.gz', recursive=True)` (line 82) list the file
`f`?  The file must lie under `run_path`; `**` matches zero or more
non-hidden directories, and `*.gz` matches a non-hidden final component
ending in `.gz` (glob's `*` and `**` never match a leading dot). -/
def globGzMatches (rp : String) (f : String) : Bool :=
  match stripPre (rp.data ++ ['/']) f.data with
  | none => false
  | some rel =>
    let comps := splitSlash [] rel
    comps.all (fun c => !c.isEmpty && c.head? ≠ some '.') &&
      (match comps.getLast? with
       | some last => List.isSuffixOf ".gz".data last
       | none => false)

/-! ## The compiled pattern `p` (line 80)

`p = re.compile('^(.*)(_S[0-9]+)(_L00[1-4])(_R[12])(_[0-9]{3}[\S]*\.fastq\.gz)$')`

`pMatch` embeds `p.match` on a filename.  Group 1 `(.*)` is greedy over
non-newline characters, so splits are attempted from the longest candidate
prefix downwards; `[0-9]+` cannot trade characters with the following
literal `_L00`, so maximal-munch digit scanning is exact; the final group is
`_` + three digits + a run of non-whitespace + literal `.fastq.gz`, anchored
by `$` (end of string, or just before one final newline). -/

/-- `[0-9]` character class. -/
def isDigitC (c : Char) : Bool := '0' ≤ c ∧ c ≤ '9'

/-- Python `\s` on ASCII input (`\S` is its complement). -/
def pySpace (c : Char) : Bool :=
  c = ' ' || c = '\t' || c = '\n' || c = '\r' || c = '\x0b' || c = '\x0c'

/-- Maximal-munch scan of `[0-9]+`: the digit prefix and the remainder. -/
def takeDigits : List Char → List Char × List Char
  | [] => ([], [])
  | c :: t =>
    if isDigitC c then
      let r := takeDigits t
      (c :: r.1, r.2)
    else ([], c :: t)

/-- Group 5, `(_[0-9]{3}[\S]*\.fastq\.gz)` followed by `$`: an underscore,
three digits, then a whitespace-free run ending in the literal `.fastq.gz`;
`$` also accepts exactly one trailing newline after the group. -/
def group5 : List Char → Option (List Char)
  | '_' :: d1 :: d2 :: d3 :: rest =>
    if isDigitC d1 && isDigitC d2 && isDigitC d3 then
      let core := if rest.getLast? = some '\n' then rest.dropLast else rest
      if List.isSuffixOf ".fastq.gz".data core &&
          (core.take (core.length - 9)).all (fun c => !pySpace c) then
        some ('_' :: d1 :: d2 :: d3 :: core)
      else none
    else none
  | _ => none

/-- Groups 2-5 of the pattern, parsed at the start of `m` and required to
reach `$`: returns `(_S<digits>, _L00<lane>, _R<mate>, chunk)`. -/
def matchTail (m : List Char) :
    Option (List Char × List Char × List Char × List Char) :=
  match m with
  | a :: b :: r0 =>
    if a = '_' ∧ b = 'S' then
      if (takeDigits r0).1 = [] then none
      else
        match (takeDigits r0).2 with
        | c1 :: c2 :: c3 :: c4 :: c5 :: r2 =>
          if c1 = '_' ∧ c2 = 'L' ∧ c3 = '0' ∧ c4 = '0' ∧
              (c5 = '1' ∨ c5 = '2' ∨ c5 = '3' ∨ c5 = '4') then
            match r2 with
            | e1 :: e2 :: e3 :: r3 =>
              if e1 = '_' ∧ e2 = 'R' ∧ (e3 = '1' ∨ e3 = '2') then
                match group5 r3 with
                | some g5 =>
                  some ('_' :: 'S' :: (takeDigits r0).1,
                        [c1, c2, c3, c4, c5], [e1, e2, e3], g5)
                | none => none
              else none
            | _ => none
          else none
        | _ => none
    else none
  | _ => none

/-- The five capture groups of the pattern of line 80. -/
structure IlluminaGroups where
  sample : List Char
  sNum : List Char
  lane : List Char
  readPart : List Char
  chunk : List Char
deriving DecidableEq, Repr

/-- One backtracking attempt of `p.match`: group 1 takes the first `k`
characters (all of which must be non-newline, since `.` never matches a
newline), and groups 2-5 must consume the remainder up to `$`. -/
def attemptAt (l : List Char) (k : Nat) : Option IlluminaGroups :=
  if (l.take k).all (fun c => c ≠ '\n') then
    match matchTail (l.drop k) with
    | some (g2, g3, g4, g5) => some ⟨l.take k, g2, g3, g4, g5⟩
    | none => none
  else none

/-- Greedy backtracking over the split point of group 1, longest first. -/
def pMatchAux (l : List Char) : Nat → Option IlluminaGroups
  | 0 => attemptAt l 0
  | Nat.succ k =>
    match attemptAt l (Nat.succ k) with
    | some g => some g
    | none => pMatchAux l k

/-- `p.match(fastq)` (intended at line 84): greedy group 1 starts from the
whole filename. -/
def pMatch (l : List Char) : Option IlluminaGroups := pMatchAux l l.length

/-! ## Global names bound by the module

Python resolves a global name at use time; reading a name that was never
bound raises `NameError`.  `boundNames` lists every name the script binds:
the imports of lines 24-31 and the assignment targets of lines 34-105
(loop variables included).  Neither `p1` (used at line 84) nor
`sample_to_files` (used at line 94) is ever bound, and neither is a Python
builtin, so loading either raises `NameError`. -/
def boundNames : List String :=
  ["sys", "re", "environ", "makedirs", "basename", "join", "exists",
   "Popen", "PIPE", "glob", "copyfile", "Path",
   "run_path", "run_id", "nextseq", "sample_path",
   "process_l2s", "stdout", "stderr", "process_b2f",
   "p", "samples_to_files", "file", "fastq", "pm", "sample",
   "used_sample_ids", "full_sample_path", "full_read_path"]

/-- Is the global name `n` bound when the discovery loop runs? -/
def nameBound (n : String) : Bool := boundNames.contains n

/-- The exceptions the script can raise. -/
inductive PyErr where
  /-- Loading a never-assigned global name. -/
  | nameError (n : String)
  /-- `shutil.copyfile` with a directory as destination (line 108). -/
  | isADirectoryError (p : String)
deriving DecidableEq, Repr

/-- Observable actions of one invocation, in program order. -/
inductive Event where
  | invokeL2S (rp : String)
  | invokeB2F (rp : String)
  | discovery
  | mkdirs (p : String)
  | copy (src dst : String)
  | touch (p : String)
deriving DecidableEq, Repr

/-- How the process ends: `sys.exit(code)` or an uncaught exception. -/
inductive Outcome where
  | exited (code : Int)
  | raised (e : PyErr)
deriving DecidableEq, Repr

/-- `samples_to_files[sample].append(file)` (line 92) on the association-list
view of the dict. -/
def appendToKey (m : List (String × List String)) (k : String) (v : String) :
    List (String × List String) :=
  m.map (fun e => if e.1 = k then (e.1, e.2 ++ [v]) else e)

/-- One iteration of the discovery loop, lines 82-94.  Line 84
(`pm = p1.match(fastq)`) loads the global `p1`, which is never bound (the
compiled pattern of line 80 is bound to `p`), so the load raises `NameError`
before any matching happens.  The rest of the body is embedded for
completeness using the one compiled pattern `p`; on the first-insertion path
line 94 (`sample_to_files[sample] = [file]`) likewise loads the never-bound
global `sample_to_files` and raises `NameError`. -/
def discoverStep (m : List (String × List String)) (file : String) :
    Except PyErr (List (String × List String)) :=
  let fastq := basename file
  if nameBound "p1" then
    match pMatch fastq.data with
    | some g =>
      let sample : String := ⟨g.sample⟩
      if sample = "Undetermined" then Except.ok m
      else
        match List.lookup sample m with
        | some _ => Except.ok (appendToKey m sample file)
        | none =>
          if nameBound "sample_to_files" then Except.ok (m ++ [(sample, [file])])
          else Except.error (PyErr.nameError "sample_to_files")
    | none => Except.ok m
  else Except.error (PyErr.nameError "p1")

/-- The discovery loop over the globbed files, threading the dict and
propagating the first exception. -/
def runDiscoveryAux (m : List (String × List String)) :
    List String → Except PyErr (List (String × List String))
  | [] => Except.ok m
  | f :: t =>
    match discoverStep m f with
    | Except.ok m2 => runDiscoveryAux m2 t
    | Except.error e => Except.error e

/-- Lines 81-94: `samples_to_files = dict()` then the loop over
`glob(f'{run_path}/**/*.gz', recursive=True)`. -/
def runDiscovery (rp : String) (tree : List String) :
    Except PyErr (List (String × List String)) :=
  runDiscoveryAux [] (tree.filter (fun f => globGzMatches rp f))

/-- State threaded through the distribution loop of lines 97-109. -/
structure DistState where
  /-- Directories existing under the sample root before the run. -/
  preDirs : List String
  /-- Directories created by `makedirs` during this run. -/
  createdDirs : List String
  /-- Files created during this run (readiness markers). -/
  createdFiles : List String
  /-- Events so far. -/
  events : List Event
  /-- `used_sample_ids` (line 97). -/
  used : List String
deriving DecidableEq, Repr

/-- One iteration of the distribution loop, lines 98-109, returning the
updated state and the exception, if one is raised.  When the destination
directory is fresh, `makedirs` creates `<sample>/reads/fastq` (line 106) and
then `copyfile(file, full_read_path)` (line 108) is called with the
*directory* `full_read_path` as destination, which raises
`IsADirectoryError` on the first file, so no file is ever copied and no
marker is ever written on that path; with an empty file list the loop body
is skipped and the marker is touched (line 109). -/
def distStep (sp : String) (st : DistState) (entry : String × List String) :
    DistState × Option PyErr :=
  let sample := entry.1
  let files := entry.2
  let full_sample_path := pathJoin sp sample
  if (st.preDirs ++ st.createdDirs).contains full_sample_path then
    ({ st with used := st.used ++ [sample] }, none)
  else
    let full_read_path := pathJoin (pathJoin full_sample_path "reads") "fastq"
    let st2 := { st with
      createdDirs := st.createdDirs ++
        [full_sample_path, pathJoin full_sample_path "reads", full_read_path],
      events := st.events ++ [Event.mkdirs full_read_path] }
    match files with
    | [] =>
      let marker := pathJoin full_sample_path (sample ++ ".ready")
      ({ st2 with createdFiles := st2.createdFiles ++ [marker],
                  events := st2.events ++ [Event.touch marker] }, none)
    | _ :: _ => (st2, some (PyErr.isADirectoryError full_read_path))

/-- The distribution loop over `samples_to_files.items()`, stopping at the
first exception with the state reached so far. -/
def runDist (sp : String) (st : DistState) :
    List (String × List String) → DistState × Option PyErr
  | [] => (st, none)
  | e :: t =>
    match distStep sp st e with
    | (st2, none) => runDist sp st2 t
    | (st2, some err) => (st2, some err)

/-- The collision report of lines 112-118: exit code, the sorted id list
printed, and the printed message (`sorted` is Python's ascending sort;
`print` joins its arguments with single spaces). -/
def finishReport (used : List String) : Int × List String × List String :=
  if used = [] then (0, [], [])
  else
    let srt := List.insertionSort (fun a b : String => a ≤ b) used
    (1, srt,
     ["Run contains samples with previously used IDs:\n " ++
      String.intercalate "\n" srt ++
      " \nReads from these are left in run path."])

/-- External observations supplied to one invocation: the two environment
locations (lines 34 and 37), the file tree under the run directory, the
directories existing under the sample root before the run, and the exit
codes / captured standard-error text of the two subprocesses. -/
structure Config where
  run_path : String
  sample_path : String
  /-- All file paths under the run directory tree when the glob runs. -/
  tree : List String
  /-- Paths for which `os.path.exists` is true before the run. -/
  existingDirs : List String
  l2sReturncode : Int
  l2sStderr : String
  b2fReturncode : Int
  b2fStderr : String
deriving DecidableEq, Repr

/-- What one invocation did: how it ended, its events in order, the messages
printed, the sorted collision report (empty when none was printed), the
directories and files it created under the sample root, and the run tree it
leaves behind (the script never deletes or rewrites run-directory files). -/
structure Result where
  outcome : Outcome
  events : List Event
  printed : List String
  report : List String
  createdDirs : List String
  createdFiles : List String
  finalTree : List String
deriving DecidableEq, Repr

/-- The failure message of lines 53-55 (the captured standard-error bytes
appear interpolated into the f-string; the model carries them as text). -/
def l2sMessage (rc : Int) (err : String) : String :=
  "Library to sample sheet failed with return code " ++ toString rc ++
    ".\nError message:\n" ++ err

/-- The failure message of lines 71-73. -/
def b2fMessage (rc : Int) (err : String) : String :=
  "Bcl2fastq failed with return code " ++ toString rc ++
    ".\nError message:\n" ++ err

/-- Lines 78-118: discovery over the run tree, distribution into the sample
root, and the final report. -/
def discoveryAndDistribution (cfg : Config) (ev : List Event) : Result :=
  let ev2 := ev ++ [Event.discovery]
  match runDiscovery cfg.run_path cfg.tree with
  | Except.error e =>
    { outcome := Outcome.raised e, events := ev2, printed := [], report := [],
      createdDirs := [], createdFiles := [], finalTree := cfg.tree }
  | Except.ok m =>
    let st0 : DistState :=
      { preDirs := cfg.existingDirs, createdDirs := [], createdFiles := [],
        events := ev2, used := [] }
    match runDist cfg.sample_path st0 m with
    | (st, some e) =>
      { outcome := Outcome.raised e, events := st.events, printed := [],
        report := [], createdDirs := st.createdDirs,
        createdFiles := st.createdFiles, finalTree := cfg.tree }
    | (st, none) =>
      let rep := finishReport st.used
      { outcome := Outcome.exited rep.1, events := st.events,
        printed := rep.2.2, report := rep.2.1,
        createdDirs := st.createdDirs, createdFiles := st.createdFiles,
        finalTree := cfg.tree }

/-- `run_id = basename(run_path)` (line 35); derived, then unused. -/
def run_id (rp : String) : String := basename rp

/-- Line 36: `nextseq = True if 'nextseq' in run_path else False`. -/
def nextseqFlag (rp : String) : Bool :=
  if hasSub "nextseq".data rp.data then true else false

/-- The whole script, lines 34-118: environment resolution, the NextSeq-only
translator and converter invocations with their failure exits (lines 40-74),
then discovery, distribution and the final report. -/
def pipeline (cfg : Config) : Result :=
  if nextseqFlag cfg.run_path then
    let ev := [Event.invokeL2S cfg.run_path]
    if cfg.l2sReturncode ≠ 0 then
      { outcome := Outcome.exited (-1), events := ev,
        printed := [l2sMessage cfg.l2sReturncode cfg.l2sStderr],
        report := [], createdDirs := [], createdFiles := [],
        finalTree := cfg.tree }
    else
      let ev2 := ev ++ [Event.invokeB2F cfg.run_path]
      if cfg.b2fReturncode ≠ 0 then
        { outcome := Outcome.exited (-1), events := ev2,
          printed := [b2fMessage cfg.b2fReturncode cfg.b2fStderr],
          report := [], createdDirs := [], createdFiles := [],
          finalTree := cfg.tree }
      else discoveryAndDistribution cfg ev2
  else discoveryAndDistribution cfg []

/-! ## Helper lemmas -/

/-- The digit scan splits its input and returns only digits. -/
theorem takeDigits_spec (l : List Char) :
    (takeDigits l).1 ++ (takeDigits l).2 = l ∧
    (takeDigits l).1.all isDigitC = true := by
  induction l with
  | nil => simp [takeDigits]
  | cons c t ih =>
    by_cases h : isDigitC c = true
    · simp [takeDigits, h, ih.1, ih.2]
    · simp [takeDigits, h]

/-- A successful tail match certifies that the input begins with `_S`
followed by a nonempty digit run, and that group 2 is exactly that marker. -/
theorem matchTail_sound (m g2 g3 g4 g5 : List Char)
    (h : matchTail m = some (g2, g3, g4, g5)) :
    ∃ ds rest, ds ≠ [] ∧ ds.all isDigitC = true ∧ g2 = '_' :: 'S' :: ds ∧
      m = '_' :: 'S' :: (ds ++ rest) := by
  match m with
  | [] => simp [matchTail] at h
  | [a] => simp [matchTail] at h
  | a :: b :: r0 =>
    have hspec := takeDigits_spec r0
    simp only [matchTail] at h
    split at h
    next hab =>
      split at h
      next => simp at h
      next hds =>
        split at h
        next c1 c2 c3 c4 c5 r2 heq1 =>
          split at h
          next hc =>
            split at h
            next e1 e2 e3 r3 heq2 =>
              split at h
              next he =>
                split at h
                next g5v heq5 =>
                  simp only [Option.some.injEq, Prod.mk.injEq] at h
                  obtain ⟨h2, h3, h4, h5⟩ := h
                  refine ⟨(takeDigits r0).1, (takeDigits r0).2, hds, hspec.2,
                    h2.symm, ?_⟩
                  rw [hspec.1, hab.1, hab.2]
                next => simp at h
              next => simp at h
            next => simp at h
          next => simp at h
        next => simp at h
    next => simp at h

/-- A successful single attempt pins group 1 to the chosen split point. -/
theorem attemptAt_sound (l : List Char) (k : Nat) (g : IlluminaGroups)
    (h : attemptAt l k = some g) :
    g.sample = l.take k ∧
    matchTail (l.drop k) = some (g.sNum, g.lane, g.readPart, g.chunk) := by
  unfold attemptAt at h
  split at h
  next =>
    split at h
    next g2 g3 g4 g5 heq =>
      simp only [Option.some.injEq] at h
      subst h
      exact ⟨rfl, heq⟩
    next => simp at h
  next => simp at h

/-- Any successful backtracking run came from some single attempt. -/
theorem pMatchAux_sound (l : List Char) :
    ∀ k g, pMatchAux l k = some g → ∃ j, attemptAt l j = some g := by
  intro k
  induction k with
  | zero => intro g h; exact ⟨0, h⟩
  | succ k ih =>
    intro g h
    simp only [pMatchAux] at h
    split at h
    next g2 heq =>
      simp only [Option.some.injEq] at h
      exact ⟨k + 1, h ▸ heq⟩
    next => exact ih g h

/-- Every iteration of the discovery loop raises `NameError` on loading the
unbound global `p1` (line 84), whatever the dict and the file are. -/
theorem discoverStep_nameError (m : List (String × List String)) (f : String) :
    discoverStep m f = Except.error (PyErr.nameError "p1") := rfl

/-- The discovery loop leaves the dict untouched exactly when it sees no
file at all. -/
theorem runDiscoveryAux_ok (m0 m : List (String × List String))
    (l : List String) (h : runDiscoveryAux m0 l = Except.ok m) :
    l = [] ∧ m = m0 := by
  cases l with
  | nil =>
    simp only [runDiscoveryAux, Except.ok.injEq] at h
    exact ⟨rfl, h.symm⟩
  | cons f t =>
    simp [runDiscoveryAux, discoverStep_nameError] at h

/-- A discovery that terminates normally produced the empty mapping. -/
theorem runDiscovery_ok (rp : String) (tree : List String)
    (m : List (String × List String))
    (h : runDiscovery rp tree = Except.ok m) : m = [] := by
  unfold runDiscovery at h
  exact (runDiscoveryAux_ok [] m _ h).2

/-- Stage 4.4 onward only appends the discovery event: with the defective
loop the distribution never runs a nonempty mapping. -/
theorem dd_events (cfg : Config) (ev : List Event) :
    (discoveryAndDistribution cfg ev).events = ev ++ [Event.discovery] := by
  cases h : runDiscovery cfg.run_path cfg.tree with
  | error e => simp [discoveryAndDistribution, h]
  | ok m =>
    have hm := runDiscovery_ok _ _ _ h
    subst hm
    simp [discoveryAndDistribution, h, runDist]

/-- Stage 4.4 onward never creates a directory. -/
theorem dd_createdDirs (cfg : Config) (ev : List Event) :
    (discoveryAndDistribution cfg ev).createdDirs = [] := by
  cases h : runDiscovery cfg.run_path cfg.tree with
  | error e => simp [discoveryAndDistribution, h]
  | ok m =>
    have hm := runDiscovery_ok _ _ _ h
    subst hm
    simp [discoveryAndDistribution, h, runDist]

/-- Stage 4.4 onward never creates a file. -/
theorem dd_createdFiles (cfg : Config) (ev : List Event) :
    (discoveryAndDistribution cfg ev).createdFiles = [] := by
  cases h : runDiscovery cfg.run_path cfg.tree with
  | error e => simp [discoveryAndDistribution, h]
  | ok m =>
    have hm := runDiscovery_ok _ _ _ h
    subst hm
    simp [discoveryAndDistribution, h, runDist]

/-- No invocation of the script creates any directory or file under the
sample root: the discovery defect aborts every run that found a read file,
and a run that found none has nothing to distribute. -/
theorem pipeline_created (cfg : Config) :
    (pipeline cfg).createdDirs = [] ∧ (pipeline cfg).createdFiles = [] := by
  by_cases h : nextseqFlag cfg.run_path
  · by_cases h0 : cfg.l2sReturncode = 0
    · by_cases h1 : cfg.b2fReturncode = 0
      · simp [pipeline, h, h0, h1, dd_createdDirs, dd_createdFiles]
      · simp [pipeline, h, h0, h1]
    · simp [pipeline, h, h0]
  · simp [pipeline, h, dd_createdDirs, dd_createdFiles]

/-- With no read file globbed, the run reaches the empty report and exits 0. -/
theorem dd_empty (cfg : Config) (ev : List Event)
    (h : cfg.tree.filter (fun f => globGzMatches cfg.run_path f) = []) :
    (discoveryAndDistribution cfg ev).outcome = Outcome.exited 0 ∧
    (discoveryAndDistribution cfg ev).report = [] := by
  have hd : runDiscovery cfg.run_path cfg.tree = Except.ok [] := by
    unfold runDiscovery
    rw [h]
    rfl
  simp [discoveryAndDistribution, hd, runDist, finishReport]

/-! ## Claims -/

/-- Claim C3: for every filename the Illumina pattern of line 80 matches,
the extracted sample identifier (group 1) is exactly the filename prefix
before the `_S<digits>` marker of the matched decomposition. -/
theorem sample_id_is_prefix_before_marker (fastq : List Char)
    (g : IlluminaGroups) (h : pMatch fastq = some g) :
    ∃ ds rest, ds ≠ [] ∧ ds.all isDigitC = true ∧ g.sNum = '_' :: 'S' :: ds ∧
      fastq = g.sample ++ ('_' :: 'S' :: ds) ++ rest := by
  obtain ⟨j, hj⟩ := pMatchAux_sound fastq fastq.length g h
  obtain ⟨hs, hmt⟩ := attemptAt_sound fastq j g hj
  obtain ⟨ds, rest, hne, hdig, hsnum, hdrop⟩ := matchTail_sound _ _ _ _ _ hmt
  refine ⟨ds, rest, hne, hdig, hsnum, ?_⟩
  rw [hs]
  rw [List.append_assoc]
  show fastq = List.take j fastq ++ ('_' :: 'S' :: (ds ++ rest))
  rw [← hdrop]
  exact (List.take_append_drop j fastq).symm

/-- A concrete match: `abc1_S1_L001_R1_001.fastq.gz` parses with sample
`abc1`, the prefix before `_S1`. -/
theorem sample_id_is_prefix_before_marker_witness :
    ∃ ds rest, ds ≠ [] ∧ ds.all isDigitC = true ∧
      (IlluminaGroups.mk "abc1".data "_S1".data "_L001".data "_R1".data
        "_001.fastq.gz".data).sNum = '_' :: 'S' :: ds ∧
      "abc1_S1_L001_R1_001.fastq.gz".data =
        (IlluminaGroups.mk "abc1".data "_S1".data "_L001".data "_R1".data
          "_001.fastq.gz".data).sample ++ ('_' :: 'S' :: ds) ++ rest :=
  sample_id_is_prefix_before_marker "abc1_S1_L001_R1_001.fastq.gz".data
    (IlluminaGroups.mk "abc1".data "_S1".data "_L001".data "_R1".data
      "_001.fastq.gz".data) (by decide)

/-- Claim C2: whenever the run tree holds a file the glob lists whose name
matches the Illumina pattern, the discovery loop raises `NameError` on its
first iteration — `p1` (line 84) and `sample_to_files` (line 94) are both
unbound — and no sample-to-files mapping is produced. -/
theorem discovery_fails_on_unbound_names (rp : String) (tree : List String)
    (h : ∃ f ∈ tree, globGzMatches rp f = true ∧
      (pMatch (basename f).data).isSome = true) :
    runDiscovery rp tree = Except.error (PyErr.nameError "p1") ∧
    "p1" ∉ boundNames ∧ "sample_to_files" ∉ boundNames := by
  refine ⟨?_, by decide, by decide⟩
  obtain ⟨f, hf, hg, _⟩ := h
  have hmem : f ∈ tree.filter (fun x => globGzMatches rp x) :=
    List.mem_filter.mpr ⟨hf, hg⟩
  unfold runDiscovery
  cases hfl : tree.filter (fun x => globGzMatches rp x) with
  | nil =>
    rw [hfl] at hmem
    cases hmem
  | cons a t =>
    simp [runDiscoveryAux, discoverStep_nameError]

/-- A run directory holding one well-formed read file makes discovery raise
`NameError` over the unbound `p1`. -/
theorem discovery_fails_on_unbound_names_witness :
    runDiscovery "/run" ["/run/abc1_S1_L001_R1_001.fastq.gz"] =
      Except.error (PyErr.nameError "p1") ∧
    "p1" ∉ boundNames ∧ "sample_to_files" ∉ boundNames :=
  discovery_fails_on_unbound_names "/run" ["/run/abc1_S1_L001_R1_001.fastq.gz"]
    (by decide)

/-! ## Concrete configurations used by individual claims -/

/-- A MiSeq run holding one well-formed read file, fresh sample root. -/
def cfgC1 : Config :=
  ⟨"/illumina/miseq_01/XYZ123", "/analysis/samples",
   ["/illumina/miseq_01/XYZ123/abc1_S1_L001_R1_001.fastq.gz"], [], 0, "", 0, ""⟩

/-- A NextSeq run whose library-sheet translation fails with code 2. -/
def cfgL2sFail : Config :=
  ⟨"/illumina/nextseq_01/XYZ123", "/analysis/samples", [], [], 2, "bad sheet",
   0, ""⟩

/-- A NextSeq run whose conversion fails with code 3. -/
def cfgB2fFail : Config :=
  ⟨"/illumina/nextseq_01/XYZ123", "/analysis/samples", [], [], 0, "", 3,
   "bad tiles"⟩

/-- A MiSeq run with no read file at all. -/
def cfgC4ok : Config :=
  ⟨"/illumina/miseq_01/EMPTY", "/analysis/samples", [], [], 0, "", 0, ""⟩

/-- Same run as `cfgC1` but with the sample's destination pre-existing. -/
def cfgC5 : Config :=
  ⟨"/illumina/miseq_01/XYZ123", "/analysis/samples",
   ["/illumina/miseq_01/XYZ123/abc1_S1_L001_R1_001.fastq.gz"],
   ["/analysis/samples/abc1"], 0, "", 0, ""⟩

/-- A MiSeq run with one read file, for the double-run scenario. -/
def cfgC6 : Config :=
  ⟨"/illumina/miseq_01/RUN6", "/analysis/samples",
   ["/illumina/miseq_01/RUN6/abc1_S1_L001_R1_001.fastq.gz"], [], 0, "", 0, ""⟩

/-- The second invocation of `cfgC6`: identical run inputs, with whatever
directories the first invocation created now existing. -/
def cfgC6second : Config :=
  { cfgC6 with existingDirs := cfgC6.existingDirs ++ (pipeline cfgC6).createdDirs }

/-- A run holding an `Undetermined` read file. -/
def cfgC7 : Config :=
  ⟨"/illumina/miseq_01/RUN7", "/analysis/samples",
   ["/illumina/miseq_01/RUN7/Undetermined_S0_L001_R1_001.fastq.gz"], [],
   0, "", 0, ""⟩

/-- A NextSeq run with both subprocesses succeeding. -/
def cfgC8 : Config :=
  ⟨"/illumina/nextseq_01/RUN8", "/analysis/samples", [], [], 0, "", 0, ""⟩

/-- A NextSeq run whose translator fails. -/
def cfgC9a : Config :=
  ⟨"/illumina/nextseq_01/RUN9", "/analysis/samples",
   ["/illumina/nextseq_01/RUN9/x.gz"], [], 2, "parse failure", 0, ""⟩

/-- A NextSeq run whose converter fails. -/
def cfgC9b : Config :=
  ⟨"/illumina/nextseq_01/RUN9", "/analysis/samples",
   ["/illumina/nextseq_01/RUN9/x.gz"], [], 0, "", 3, "tile error"⟩

/-- A run path containing `NextSeq` in mixed case but not lowercase. -/
def cfgC10 : Config :=
  ⟨"/data/NextSeqOutput/XYZ123", "/analysis/samples", [], [], 0, "", 0, ""⟩

/-- Claim C1 (code bug): on a run with one well-formed read file and a fresh
destination, the script raises `NameError` over the unbound `p1` instead of
copying, so the destination receives neither files nor marker; and even the
distribution step in isolation raises `IsADirectoryError`, because line 108
passes the directory `full_read_path` as `copyfile` destination, so it too
writes no file and no marker. -/
theorem distribution_never_happens :
    (pipeline cfgC1).outcome = Outcome.raised (PyErr.nameError "p1") ∧
    (pipeline cfgC1).createdDirs = [] ∧
    (pipeline cfgC1).createdFiles = [] ∧
    (distStep "/analysis/samples" (DistState.mk [] [] [] [] [])
        ("abc1", ["/illumina/miseq_01/XYZ123/abc1_S1_L001_R1_001.fastq.gz"])).2 =
      some (PyErr.isADirectoryError "/analysis/samples/abc1/reads/fastq") ∧
    (distStep "/analysis/samples" (DistState.mk [] [] [] [] [])
        ("abc1", ["/illumina/miseq_01/XYZ123/abc1_S1_L001_R1_001.fastq.gz"])).1.createdFiles =
      [] := by
  decide

/-- Claim C4 counterexample: the library-sheet-translation failure and the
conversion failure terminate with the same status `sys.exit(-1)` (lines 56
and 74), refuting the claimed distinctness of the two failure codes. -/
theorem failure_codes_coincide_cex :
    (pipeline cfgL2sFail).outcome = Outcome.exited (-1) ∧
    (pipeline cfgB2fFail).outcome = Outcome.exited (-1) ∧
    (pipeline cfgL2sFail).outcome = (pipeline cfgB2fFail).outcome := by
  decide

/-- Claim C4 (amended): exit status 0 on success with no collisions; status
-1 for a library-sheet-translation failure and the same status -1 for a
conversion failure (they are not distinct from each other); and status 1 on
the collision-report path, distinct from both 0 and -1. -/
theorem exit_codes_amended :
    (∀ cfg : Config, nextseqFlag cfg.run_path = true → cfg.l2sReturncode ≠ 0 →
      (pipeline cfg).outcome = Outcome.exited (-1)) ∧
    (∀ cfg : Config, nextseqFlag cfg.run_path = true → cfg.l2sReturncode = 0 →
      cfg.b2fReturncode ≠ 0 → (pipeline cfg).outcome = Outcome.exited (-1)) ∧
    (∀ cfg : Config,
      cfg.tree.filter (fun f => globGzMatches cfg.run_path f) = [] →
      (nextseqFlag cfg.run_path = true →
        cfg.l2sReturncode = 0 ∧ cfg.b2fReturncode = 0) →
      (pipeline cfg).outcome = Outcome.exited 0 ∧ (pipeline cfg).report = []) ∧
    (∀ used : List String, used ≠ [] → (finishReport used).1 = 1) ∧
    ((-1 : Int) ≠ 0 ∧ (1 : Int) ≠ -1 ∧ (1 : Int) ≠ 0) := by
  refine ⟨?_, ?_, ?_, ?_, by decide⟩
  · intro cfg h h1
    simp [pipeline, h, h1]
  · intro cfg h h0 h1
    simp [pipeline, h, h0, h1]
  · intro cfg hg himp
    by_cases h : nextseqFlag cfg.run_path = true
    · obtain ⟨h0, h1⟩ := himp h
      simp only [pipeline, h, h0, h1, if_true]
      simp
      exact dd_empty cfg _ hg
    · simp only [pipeline]
      simp [h]
      exact dd_empty cfg _ hg
  · intro used h
    simp [finishReport, h]

/-- The amended exit codes at concrete runs: translator failure exits -1,
converter failure exits -1, the empty successful run exits 0, and a
nonempty collision list yields status 1. -/
theorem exit_codes_amended_witness :
    (pipeline cfgL2sFail).outcome = Outcome.exited (-1) ∧
    (pipeline cfgB2fFail).outcome = Outcome.exited (-1) ∧
    (pipeline cfgC4ok).outcome = Outcome.exited 0 ∧
    (finishReport ["abc1"]).1 = 1 :=
  ⟨exit_codes_amended.1 cfgL2sFail (by decide) (by decide),
   exit_codes_amended.2.1 cfgB2fFail (by decide) (by decide) (by decide),
   (exit_codes_amended.2.2.1 cfgC4ok (by decide) (by decide)).1,
   exit_codes_amended.2.2.2.1 ["abc1"] (by decide)⟩

/-- Claim C5 (code bug): with the sample's destination pre-existing, the run
raises `NameError` over the unbound `p1` before the collision check, so the
sample id never reaches any collision report and nothing is printed. -/
theorem collision_report_never_printed :
    (pipeline cfgC5).outcome = Outcome.raised (PyErr.nameError "p1") ∧
    (pipeline cfgC5).report = [] ∧
    (pipeline cfgC5).printed = [] ∧
    (pipeline cfgC5).createdDirs = [] := by
  decide

/-- Claim C6 (code bug): the first run over a distributable read file raises
`NameError` and distributes nothing, and the second identical run (with the
first run's created directories, none, added) again raises and reports no
collision — no run ever distributes a sample for a later report to cover. -/
theorem second_run_reports_nothing :
    (pipeline cfgC6).outcome = Outcome.raised (PyErr.nameError "p1") ∧
    (pipeline cfgC6).createdDirs = [] ∧
    (pipeline cfgC6).createdFiles = [] ∧
    (pipeline cfgC6second).createdDirs = [] ∧
    (pipeline cfgC6second).report = [] ∧
    (pipeline cfgC6second).outcome = Outcome.raised (PyErr.nameError "p1") := by
  decide

/-- Claim C7: an `Undetermined` sample identifier never appears in any
mapping discovery returns, and no invocation ever creates the
`Undetermined` destination directory or its readiness marker. -/
theorem undetermined_never_distributed :
    (∀ (rp : String) (tree : List String) (m : List (String × List String)),
      runDiscovery rp tree = Except.ok m →
      "Undetermined" ∉ m.map Prod.fst) ∧
    (∀ cfg : Config,
      pathJoin cfg.sample_path "Undetermined" ∉ (pipeline cfg).createdDirs ∧
      pathJoin (pathJoin cfg.sample_path "Undetermined") "Undetermined.ready" ∉
        (pipeline cfg).createdFiles) := by
  constructor
  · intro rp tree m h
    have hm := runDiscovery_ok rp tree m h
    subst hm
    simp
  · intro cfg
    have hc := pipeline_created cfg
    exact ⟨by simp [hc.1], by simp [hc.2]⟩

/-- On the concrete run holding an `Undetermined` read file, no
`Undetermined` destination directory is created, and the empty-tree
discovery yields a mapping without that key. -/
theorem undetermined_never_distributed_witness :
    "Undetermined" ∉ (([] : List (String × List String)).map Prod.fst) ∧
    pathJoin "/analysis/samples" "Undetermined" ∉ (pipeline cfgC7).createdDirs :=
  ⟨undetermined_never_distributed.1 "/run" [] [] rfl,
   (undetermined_never_distributed.2 cfgC7).1⟩

/-- Claim C8: on a run path holding the lowercase `nextseq` marker the
translator is invoked first, then the converter, then discovery starts
(when both succeed; the translator always comes first); on any other path
neither tool is invoked and the first event is discovery. -/
theorem stages_invoked_before_discovery (cfg : Config) :
    (nextseqFlag cfg.run_path = true → cfg.l2sReturncode = 0 →
      cfg.b2fReturncode = 0 →
      (pipeline cfg).events =
        [Event.invokeL2S cfg.run_path, Event.invokeB2F cfg.run_path,
         Event.discovery]) ∧
    (nextseqFlag cfg.run_path = true →
      (pipeline cfg).events.head? = some (Event.invokeL2S cfg.run_path)) ∧
    (nextseqFlag cfg.run_path = false →
      (pipeline cfg).events = [Event.discovery] ∧
      ∀ rp, Event.invokeL2S rp ∉ (pipeline cfg).events ∧
        Event.invokeB2F rp ∉ (pipeline cfg).events) := by
  refine ⟨?_, ?_, ?_⟩
  · intro h h0 h1
    simp [pipeline, h, h0, h1, dd_events]
  · intro h
    by_cases h0 : cfg.l2sReturncode = 0
    · by_cases h1 : cfg.b2fReturncode = 0
      · simp [pipeline, h, h0, h1, dd_events]
      · simp [pipeline, h, h0, h1]
    · simp [pipeline, h, h0]
  · intro h
    have he : (pipeline cfg).events = [Event.discovery] := by
      simp [pipeline, h, dd_events]
    exact ⟨he, fun rp => by simp [he]⟩

/-- On the concrete successful NextSeq run the event order is translator,
converter, discovery. -/
theorem stages_invoked_before_discovery_witness :
    (pipeline cfgC8).events =
      [Event.invokeL2S cfgC8.run_path, Event.invokeB2F cfgC8.run_path,
       Event.discovery] :=
  (stages_invoked_before_discovery cfgC8).1 (by decide) rfl rfl

/-- Claim C9: a nonzero translator or converter exit makes the script print
one message carrying both the exit code and the captured standard-error
text, terminate with the nonzero status -1, and skip discovery and
distribution with nothing created and the run tree untouched; a zero exit
lets the pipeline continue to the next stage. -/
theorem subprocess_failure_halts (cfg : Config) :
    (nextseqFlag cfg.run_path = true → cfg.l2sReturncode ≠ 0 →
      (pipeline cfg).outcome = Outcome.exited (-1) ∧ ((-1 : Int) ≠ 0) ∧
      (pipeline cfg).printed = [l2sMessage cfg.l2sReturncode cfg.l2sStderr] ∧
      (∃ pre suf, (l2sMessage cfg.l2sReturncode cfg.l2sStderr).data =
        pre ++ cfg.l2sStderr.data ++ suf) ∧
      (∃ pre suf, (l2sMessage cfg.l2sReturncode cfg.l2sStderr).data =
        pre ++ (toString cfg.l2sReturncode).data ++ suf) ∧
      Event.discovery ∉ (pipeline cfg).events ∧
      (pipeline cfg).createdDirs = [] ∧ (pipeline cfg).createdFiles = [] ∧
      (pipeline cfg).finalTree = cfg.tree) ∧
    (nextseqFlag cfg.run_path = true → cfg.l2sReturncode = 0 →
      cfg.b2fReturncode ≠ 0 →
      (pipeline cfg).outcome = Outcome.exited (-1) ∧
      (pipeline cfg).printed = [b2fMessage cfg.b2fReturncode cfg.b2fStderr] ∧
      (∃ pre suf, (b2fMessage cfg.b2fReturncode cfg.b2fStderr).data =
        pre ++ cfg.b2fStderr.data ++ suf) ∧
      (∃ pre suf, (b2fMessage cfg.b2fReturncode cfg.b2fStderr).data =
        pre ++ (toString cfg.b2fReturncode).data ++ suf) ∧
      Event.discovery ∉ (pipeline cfg).events ∧
      (pipeline cfg).createdDirs = [] ∧ (pipeline cfg).createdFiles = [] ∧
      (pipeline cfg).finalTree = cfg.tree) ∧
    (nextseqFlag cfg.run_path = true → cfg.l2sReturncode = 0 →
      Event.invokeB2F cfg.run_path ∈ (pipeline cfg).events) ∧
    (nextseqFlag cfg.run_path = true → cfg.l2sReturncode = 0 →
      cfg.b2fReturncode = 0 → Event.discovery ∈ (pipeline cfg).events) := by
  refine ⟨?_, ?_, ?_, ?_⟩
  · intro h h1
    refine ⟨by simp [pipeline, h, h1], by decide, by simp [pipeline, h, h1],
      ?_, ?_, by simp [pipeline, h, h1], by simp [pipeline, h, h1],
      by simp [pipeline, h, h1], by simp [pipeline, h, h1]⟩
    · refine ⟨("Library to sample sheet failed with return code " ++
        toString cfg.l2sReturncode ++ ".\nError message:\n").data, [], ?_⟩
      simp [l2sMessage, String.data_append]
    · refine ⟨"Library to sample sheet failed with return code ".data,
        (".\nError message:\n" ++ cfg.l2sStderr).data, ?_⟩
      simp [l2sMessage, String.data_append]
  · intro h h0 h1
    refine ⟨by simp [pipeline, h, h0, h1], by simp [pipeline, h, h0, h1],
      ?_, ?_, by simp [pipeline, h, h0, h1], by simp [pipeline, h, h0, h1],
      by simp [pipeline, h, h0, h1], by simp [pipeline, h, h0, h1]⟩
    · refine ⟨("Bcl2fastq failed with return code " ++
        toString cfg.b2fReturncode ++ ".\nError message:\n").data, [], ?_⟩
      simp [b2fMessage, String.data_append]
    · refine ⟨"Bcl2fastq failed with return code ".data,
        (".\nError message:\n" ++ cfg.b2fStderr).data, ?_⟩
      simp [b2fMessage, String.data_append]
  · intro h h0
    by_cases h1 : cfg.b2fReturncode = 0
    · simp [pipeline, h, h0, h1, dd_events]
    · simp [pipeline, h, h0, h1]
  · intro h h0 h1
    simp [pipeline, h, h0, h1, dd_events]

/-- On concrete failing runs: the translator failure exits -1 with no
discovery event, and the converter failure exits -1. -/
theorem subprocess_failure_halts_witness :
    (pipeline cfgC9a).outcome = Outcome.exited (-1) ∧
    Event.discovery ∉ (pipeline cfgC9a).events ∧
    (pipeline cfgC9b).outcome = Outcome.exited (-1) := by
  have ha := (subprocess_failure_halts cfgC9a).1 (by decide) (by decide)
  have hb := (subprocess_failure_halts cfgC9b).2.1 (by decide) (by decide)
    (by decide)
  exact ⟨ha.1, ha.2.2.2.2.2.1, hb.1⟩

/-- Claim C10: run-type classification is the case-sensitive lowercase
`nextseq` substring test over the whole run path (line 36): a path without
the lowercase marker — even one containing `NextSeq` — is treated as MiSeq
and invokes neither tool, while the marker anywhere in the path (not only
in the final component) triggers the translator. -/
theorem classification_lowercase_whole_path :
    (∀ cfg : Config, nextseqFlag cfg.run_path = false →
      ∀ rp, Event.invokeL2S rp ∉ (pipeline cfg).events ∧
        Event.invokeB2F rp ∉ (pipeline cfg).events) ∧
    nextseqFlag "/data/NextSeqOutput/XYZ123" = false ∧
    nextseqFlag "/illumina/nextseq_01/Output/XYZ123" = true ∧
    nextseqFlag (basename "/illumina/nextseq_01/Output/XYZ123") = false ∧
    (∀ cfg : Config, nextseqFlag cfg.run_path = true →
      Event.invokeL2S cfg.run_path ∈ (pipeline cfg).events) := by
  refine ⟨?_, by decide, by decide, by decide, ?_⟩
  · intro cfg h rp
    have he : (pipeline cfg).events = [Event.discovery] := by
      simp [pipeline, h, dd_events]
    simp [he]
  · intro cfg h
    by_cases h0 : cfg.l2sReturncode = 0
    · by_cases h1 : cfg.b2fReturncode = 0
      · simp [pipeline, h, h0, h1, dd_events]
      · simp [pipeline, h, h0, h1]
    · simp [pipeline, h, h0]

/-- The mixed-case path `/data/NextSeqOutput/XYZ123` is classified MiSeq:
neither external tool is invoked. -/
theorem classification_lowercase_whole_path_witness :
    Event.invokeL2S "/data/NextSeqOutput/XYZ123" ∉ (pipeline cfgC10).events ∧
    Event.invokeB2F "/data/NextSeqOutput/XYZ123" ∉ (pipeline cfgC10).events :=
  classification_lowercase_whole_path.1 cfgC10 (by decide)
    "/data/NextSeqOutput/XYZ123"

end RunContainer
